import Mathlib

/-!
Shallow embedding of the confidence-backend e-commerce server
(`server.js` together with the duplicate product router file that is
concatenated to it in the repository).  Handlers are embedded as pure
functions; the MongoDB stores are explicit lists threaded through the
registration handler; external collaborators (bcrypt, jwt signing, the
media-upload delegate) are parameters.  JavaScript numbers that can be
NaN or Infinity are modelled by the inductive `JsNum` over `ℚ`.
-/

/-- JavaScript number as produced by the arithmetic in the handlers:
either NaN, positive or negative Infinity, or a rational value. -/
inductive JsNum where
  | nan : JsNum
  | inf : JsNum
  | ninf : JsNum
  | num : ℚ → JsNum
deriving DecidableEq, Repr

/-- JavaScript subtraction restricted to the NaN-or-integer values that
`parseInt` produces (`none` is NaN, which propagates). -/
def jsIntSub : Option ℤ → Option ℤ → Option ℤ
  | some a, some b => some (a - b)
  | _, _ => none

/-- JavaScript multiplication restricted to the NaN-or-integer values
that `parseInt` produces (`none` is NaN, which propagates). -/
def jsIntMul : Option ℤ → Option ℤ → Option ℤ
  | some a, some b => some (a * b)
  | _, _ => none

/-- JavaScript truthiness of an optional string request field: an absent
field (`undefined`) and the empty string are falsy, every other string is
truthy. -/
def truthy : Option String → Bool
  | none => false
  | some s => s ≠ ""

/-- JavaScript whitespace characters recognised at the front of
`parseInt` and `parseFloat` input. -/
def isJsWhitespace (c : Char) : Bool :=
  c = ' ' ∨ c = '\t' ∨ c = '\n' ∨ c = '\r'

/-- Numeric value of a run of decimal digits. -/
def digitsToNat (ds : List Char) : ℕ :=
  ds.foldl (fun a c => 10 * a + (c.toNat - 48)) 0

/-- JavaScript `parseInt(s)` (base 10, the fragment without a `0x` prefix):
skip leading whitespace, read an optional sign and then the longest prefix
of decimal digits; no digits at all gives NaN, modelled as `none`. -/
def jsParseInt (s : String) : Option ℤ :=
  let cs := s.toList.dropWhile isJsWhitespace
  let sign : ℤ := match cs with
    | '-' :: _ => -1
    | _ => 1
  let cs' := match cs with
    | '-' :: t => t
    | '+' :: t => t
    | _ => cs
  let ds := cs'.takeWhile Char.isDigit
  if ds.isEmpty then none else some (sign * digitsToNat ds)

/-- JavaScript `parseFloat(s)` (the fragment of plain decimal literals,
without exponents or the `Infinity` literal): skip leading whitespace,
read an optional sign, an integer part and an optional fraction part; if
neither part has a digit the result is NaN, modelled as `none`. -/
def jsParseFloat (s : String) : Option ℚ :=
  let cs := s.toList.dropWhile isJsWhitespace
  let sign : ℚ := match cs with
    | '-' :: _ => -1
    | _ => 1
  let cs' := match cs with
    | '-' :: t => t
    | '+' :: t => t
    | _ => cs
  let intDs := cs'.takeWhile Char.isDigit
  let rest := cs'.dropWhile Char.isDigit
  let fracDs := match rest with
    | '.' :: t => t.takeWhile Char.isDigit
    | _ => []
  if intDs.isEmpty ∧ fracDs.isEmpty then none
  else some (sign * ((digitsToNat intDs : ℚ) + (digitsToNat fracDs : ℚ) / 10 ^ fracDs.length))

/-- JavaScript `parseInt` applied to a possibly absent query/body value:
`parseInt(undefined)` is NaN. -/
def jsParseIntOpt (o : Option String) : Option ℤ :=
  match o with
  | none => none
  | some s => jsParseInt s

/-- View an integer parse result as a JavaScript number (`none` is NaN). -/
def jsNumOfInt : Option ℤ → JsNum
  | none => .nan
  | some z => .num (z : ℚ)

/-- View a float parse result as a JavaScript number (`none` is NaN). -/
def jsNumOfRat : Option ℚ → JsNum
  | none => .nan
  | some q => .num q

/-! ## Credential store and the registration / login handlers -/

/-- A persisted user record (`models/User`): username, bcrypt password
hash stored in the `password` field, and role. -/
structure UserRec where
  username : String
  password : String
  role : String
deriving DecidableEq, Repr

/-- The lookup `User.findOne({ username })`: the first stored record with the given
username. -/
def findUser (store : List UserRec) (username : String) : Option UserRec :=
  store.find? (fun u => u.username == username)

/-- Modelled from the spec: the `User` model file (`models/User.js`) is
required by `server.js` but is not part of the sources; per the spec the
`role` field is "enumerated value, one of `{user, admin}`", so the
store's save step accepts exactly these two role values and rejects any
other with a validation error. -/
def roleValid (r : String) : Bool :=
  r == "user" || r == "admin"

/-- Body of a `POST /api/register` request. -/
structure RegisterReq where
  username : Option String
  password : Option String
  role : Option String
deriving DecidableEq, Repr

/-- Outcome of the registration handler. -/
inductive RegisterResult where
  /-- 400 `Username and password are required`. -/
  | badRequest : RegisterResult
  /-- 409 `Username already exists`. -/
  | conflict : RegisterResult
  /-- 500, surfaced from a store validation failure. -/
  | serverError : RegisterResult
  /-- 201 `User registered successfully`, carrying the saved record. -/
  | created : UserRec → RegisterResult
deriving DecidableEq, Repr

/-- The `POST /api/register` handler: presence check on username and
password, uniqueness check against the credential store, bcrypt hash
(abstracted as the `hash` parameter), `role || 'user'` defaulting, and
the save against the spec-modelled `User` schema.  Returns the HTTP
outcome and the credential store after the request. -/
def register (hash : String → String) (store : List UserRec) (req : RegisterReq) :
    RegisterResult × List UserRec :=
  if ¬ (truthy req.username ∧ truthy req.password) then
    (.badRequest, store)
  else
    let uname := req.username.getD ""
    match findUser store uname with
    | some _ => (.conflict, store)
    | none =>
      let hashed := hash (req.password.getD "")
      let newRole := match req.role with
        | some r => if r ≠ "" then r else "user"
        | none => "user"
      let newUser : UserRec := { username := uname, password := hashed, role := newRole }
      if roleValid newRole then (.created newUser, store ++ [newUser])
      else (.serverError, store)

/-- Body of a `POST /api/login` request. -/
structure LoginReq where
  username : Option String
  password : Option String
deriving DecidableEq, Repr

/-- Outcome of the login handler; failure constructors carry the JSON
`message` string of the response body. -/
inductive LoginResult where
  /-- 400 with the given message. -/
  | badRequest : String → LoginResult
  /-- 401 with the given message. -/
  | unauthenticated : String → LoginResult
  /-- 200 `Login successful` with the signed token and the role. -/
  | ok : String → String → LoginResult
deriving DecidableEq, Repr

/-- The `POST /api/login` handler: presence check, `User.findOne`, bcrypt
comparison (abstracted as `compare`), and token issuance
(`jwt.sign({id, username, role}, ...)`, abstracted as `sign` applied to
the username and role of the identity payload). -/
def login (compare : String → String → Bool)
    (sign : String → String → String)
    (store : List UserRec) (req : LoginReq) : LoginResult :=
  if ¬ (truthy req.username ∧ truthy req.password) then
    .badRequest "Username and password are required"
  else
    let uname := req.username.getD ""
    let pw := req.password.getD ""
    match findUser store uname with
    | none => .unauthenticated "Invalid credentials"
    | some user =>
      if ¬ compare pw user.password then
        .unauthenticated "Invalid credentials"
      else
        .ok (sign user.username user.role) user.role

/-! ## Catalog store: products -/

/-- A persisted product record (`models/Product`).  Numeric fields are
JavaScript numbers because the handlers store the raw results of
`parseFloat` / `parseInt`.  `id` models the MongoDB `_id`. -/
structure ProductRec where
  id : String
  name : String
  description : String
  price : JsNum
  original_price : Option JsNum
  quantity : JsNum
  category : String
  subcategory : String
  image : String
  specs : List String
  createdAt : ℕ
deriving DecidableEq, Repr

/-! ## The search regular expression

`GET /api/products` builds `new RegExp(search, 'i')` from the raw search
string and tests the five text fields against it.  The embedding covers
the fragment of JavaScript regular expressions whose patterns consist of
literal characters and the `.` wildcard; every pattern the theorems below
touch lies in this fragment. -/

/-- ASCII lower-casing, the effect of the `'i'` flag on the character
comparisons performed here. -/
def lcChar (c : Char) : Char :=
  if 'A' ≤ c ∧ c ≤ 'Z' then Char.ofNat (c.toNat + 32) else c

/-- One token of a compiled pattern: a literal character or the `.`
wildcard. -/
inductive RTok where
  | lit : Char → RTok
  | dot : RTok
deriving DecidableEq, Repr

/-- Compile a pattern string of the supported fragment: `.` becomes the
wildcard, every other character a literal. -/
def compilePattern (cs : List Char) : List RTok :=
  cs.map (fun c => if c = '.' then RTok.dot else RTok.lit c)

/-- Does one token match one subject character (case-insensitively)?  The
JavaScript `.` matches every character except line terminators. -/
def tokMatches (t : RTok) (c : Char) : Bool :=
  match t with
  | .lit l => lcChar l = lcChar c
  | .dot => ¬ (c = '\n' ∨ c = '\r' ∨ c.toNat = 0x2028 ∨ c.toNat = 0x2029)

/-- Match the whole pattern at the start of the subject. -/
def matchHere : List RTok → List Char → Bool
  | [], _ => true
  | _ :: _, [] => false
  | t :: ts, c :: cs => tokMatches t c && matchHere ts cs

/-- The test `RegExp.prototype.test`: match the pattern at some position of the
subject. -/
def regexTest (pat : List RTok) : List Char → Bool
  | [] => matchHere pat []
  | s@(_ :: cs) => matchHere pat s || regexTest pat cs

/-- Case-insensitive prefix comparison. -/
def isPrefixCI : List Char → List Char → Bool
  | [], _ => true
  | _ :: _, [] => false
  | a :: as, b :: bs => (lcChar a = lcChar b) && isPrefixCI as bs

/-- Case-insensitive substring occurrence: the needle occurs at some
position of the haystack. -/
def substrCI (needle : List Char) : List Char → Bool
  | [] => isPrefixCI needle []
  | s@(_ :: cs) => isPrefixCI needle s || substrCI needle cs

/-- The `$or` search filter of `GET /api/products`: the compiled
case-insensitive regular expression is tested against `name`,
`description`, `category`, `subcategory`, and each entry of the `specs`
array. -/
def productMatchesSearch (search : String) (p : ProductRec) : Bool :=
  let pat := compilePattern search.toList
  regexTest pat p.name.toList ||
  regexTest pat p.description.toList ||
  regexTest pat p.category.toList ||
  regexTest pat p.subcategory.toList ||
  p.specs.any (fun sp => regexTest pat sp.toList)

/-- Written from the spec sentence for C7, to be compared with the code's
`productMatchesSearch`: the search string occurs as a case-insensitive
substring of `name`, `description`, `category`, `subcategory`, or one of
the `specs` entries. -/
def specSubstringMatch (search : String) (p : ProductRec) : Bool :=
  substrCI search.toList p.name.toList ||
  substrCI search.toList p.description.toList ||
  substrCI search.toList p.category.toList ||
  substrCI search.toList p.subcategory.toList ||
  p.specs.any (fun sp => substrCI search.toList sp.toList)

/-- Characters with a special meaning in JavaScript regular expression
patterns. -/
def jsRegexSpecial (c : Char) : Bool :=
  c = '.' ∨ c = '*' ∨ c = '+' ∨ c = '?' ∨ c = '^' ∨ c = '$' ∨
  c = '(' ∨ c = ')' ∨ c = '[' ∨ c = ']' ∨ c = '\x7b' ∨ c = '\x7d' ∨
  c = '|' ∨ c = '\\'

/-! ## Query builder and the `GET /api/products` listing handler -/

/-- The store query `server.js` hands to `Product.find(query).skip(...)
.limit(...)`:
the optional `$or` regular-expression source, the optional exact category
filter, and the skip and limit values, which come out of `parseInt` and
are therefore either NaN (modelled as `none`) or an integer. -/
structure StoreQuery where
  searchRe : Option String
  categoryEq : Option String
  skip : Option ℤ
  lim : Option ℤ
deriving DecidableEq, Repr

/-- Lines 153-174 of `server.js`: destructure `page` and `limit`
(`limit` defaulting to `9999`), attach the `$or` regex filter when
`search` is truthy and the exact `category` filter when `category` is
truthy and not `'All'`, and compute
`skip = (parseInt(page) - 1) * parseInt(limit)`. -/
def buildListQuery (page limit search category : Option String) : StoreQuery :=
  let limStr := limit.getD "9999"
  { searchRe := match search with
      | some s => if s ≠ "" then some s else none
      | none => none
    categoryEq := match category with
      | some c => if c ≠ "" ∧ c ≠ "All" then some c else none
      | none => none
    skip := jsIntMul (jsIntSub (jsParseIntOpt page) (some 1)) (jsParseInt limStr)
    lim := jsParseInt limStr }

/-- Does a product match a built store query?  Mirrors how MongoDB
evaluates the query document: the `$or` regex clause (if present) must
match, and the exact `category` clause (if present) must be equal. -/
def matchesDoc (q : StoreQuery) (p : ProductRec) : Bool :=
  (match q.searchRe with
   | some s => productMatchesSearch s p
   | none => true) &&
  (match q.categoryEq with
   | some c => p.category == c
   | none => true)

/-- Insert a product into a list that is sorted by `createdAt`
descending. -/
def insertDesc (p : ProductRec) : List ProductRec → List ProductRec
  | [] => [p]
  | q :: t => if q.createdAt ≤ p.createdAt then p :: q :: t else q :: insertDesc p t

/-- Sort a product list by `createdAt` descending
(`.sort({ createdAt: -1 })`). -/
def sortByCreatedAtDesc : List ProductRec → List ProductRec
  | [] => []
  | p :: t => insertDesc p (sortByCreatedAtDesc t)

/-- The value `parseInt(page)` that `server.js` returns as `currentPage`:
either NaN (modelled as `none`) or an integer. -/
def listCurrentPage (page : Option String) : Option ℤ :=
  jsParseIntOpt page

/-- The value `Math.ceil(totalProducts / parseInt(limit))` under JavaScript
semantics: NaN limit gives NaN, limit `0` gives NaN for `0/0` and
Infinity otherwise. -/
def listTotalPages (total : ℕ) (lim : Option ℤ) : JsNum :=
  match lim with
  | none => .nan
  | some l =>
    if l = 0 then (if total = 0 then .nan else .inf)
    else .num (⌈(total : ℚ) / (l : ℚ)⌉ : ℤ)

/-- The response body of a successful `GET /api/products`. -/
structure ListResp where
  products : List ProductRec
  currentPage : Option ℤ
  totalPages : JsNum
  totalProducts : ℕ
deriving DecidableEq, Repr

/-- The `GET /api/products` handler.  It builds the store query, runs
`find().skip().limit().sort()` and `countDocuments` with the same query,
and assembles the response.  When the skip or limit value handed to the
store is NaN or negative, the store call does not behave as a normal
paged query (the driver rejects such cursors and the route answers 500
from its catch block); those executions are outside the model and the
handler returns `none` for them, recording nothing more than
`buildListQuery` already exposes. -/
def listProducts (store : List ProductRec) (page limit search category : Option String) :
    Option ListResp :=
  let q := buildListQuery page limit search category
  let limParsed := jsParseInt ((limit.getD "9999"))
  match q.skip, limParsed with
  | some sk, some l =>
    if 0 ≤ sk ∧ 0 ≤ l then
      let filtered := store.filter (matchesDoc q)
      let sorted := sortByCreatedAtDesc filtered
      some { products := (sorted.drop sk.toNat).take l.toNat
             currentPage := listCurrentPage page
             totalPages := listTotalPages filtered.length limParsed
             totalProducts := filtered.length }
    else none
  | _, _ => none

/-! ## Product write handlers -/

/-- JSON whitespace. -/
def isJsonWs (c : Char) : Bool :=
  c = ' ' ∨ c = '\t' ∨ c = '\n' ∨ c = '\r'

/-- Drop leading JSON whitespace. -/
def skipWs (cs : List Char) : List Char :=
  cs.dropWhile isJsonWs

/-- Scan the body of a JSON string literal after the opening quote (the
fragment without escape sequences). -/
def scanJString : List Char → Option (List Char × List Char)
  | [] => none
  | '"' :: rest => some ([], rest)
  | '\\' :: _ => none
  | c :: rest => (scanJString rest).map (fun r => (c :: r.1, r.2))

/-- Parse the comma-separated elements of a JSON array of strings, after
the opening bracket; the fuel bounds the recursion. -/
def parseJElems : ℕ → List Char → Option (List String × List Char)
  | 0, _ => none
  | fuel + 1, cs =>
    match skipWs cs with
    | '"' :: rest =>
      match scanJString rest with
      | none => none
      | some (str, rest2) =>
        match skipWs rest2 with
        | ',' :: rest3 => (parseJElems fuel rest3).map (fun r => (String.mk str :: r.1, r.2))
        | ']' :: rest3 => some ([String.mk str], rest3)
        | _ => none
    | _ => none

/-- JavaScript `JSON.parse` restricted to arrays of plain strings, the shape the
`specs` form field carries; any other input throws, modelled as
`none`. -/
def jsonParseStringArray (s : String) : Option (List String) :=
  match skipWs s.toList with
  | '[' :: rest =>
    match skipWs rest with
    | ']' :: rest2 => if (skipWs rest2).isEmpty then some [] else none
    | _ =>
      match parseJElems (rest.length + 1) rest with
      | some (l, r) => if (skipWs r).isEmpty then some l else none
      | none => none
  | _ => none

/-- A well-formed MongoDB ObjectId: 24 hexadecimal characters.  A lookup
with any other id string raises a `CastError`. -/
def isValidObjectId (s : String) : Bool :=
  s.length = 24 && s.toList.all (fun c => c.isDigit || ('a' ≤ c ∧ c ≤ 'f') || ('A' ≤ c ∧ c ≤ 'F'))

/-- Multipart body of a product create / update request; every field
arrives as a string when present. -/
structure ProductBody where
  name : Option String
  description : Option String
  price : Option String
  originalPrice : Option String
  quantity : Option String
  category : Option String
  subCategory : Option String
  specs : Option String
deriving DecidableEq, Repr

/-- The required-field presence check of `POST /api/products`:
`!name || !description || !price || !quantity || !category ||
!subCategory`. -/
def missingRequired (b : ProductBody) : Bool :=
  !truthy b.name || !truthy b.description || !truthy b.price ||
  !truthy b.quantity || !truthy b.category || !truthy b.subCategory

/-- Outcome of the `POST /api/products` handler, paired below with
whether the media-host upload was performed. -/
inductive CreateResult where
  /-- 400 `No image file uploaded`. -/
  | badRequestNoFile : CreateResult
  /-- 400 `Missing required product fields: ...`. -/
  | badRequestMissing : CreateResult
  /-- 500, from `JSON.parse` throwing on the `specs` field. -/
  | serverError : CreateResult
  /-- The handler reaches `newProduct.save()` with this record; on store
  success it answers 201 with the record, on store failure 500. -/
  | saved : ProductRec → CreateResult
deriving DecidableEq, Repr

/-- The `POST /api/products` handler (after the admin-gated middleware):
reject when no file part is present, upload the image to the media host
(`uploadF`, returning the durable URL), check the required body fields,
then build the record with `parseFloat` / `parseInt` on the numeric
fields and `JSON.parse` on `specs`, and hand it to the store.  The
second component records whether the upload call was made.  `newId` and
`now` stand for the store-assigned id and timestamp. -/
def createProduct (uploadF : String → String) (newId : String) (now : ℕ)
    (file : Option String) (b : ProductBody) : CreateResult × Bool :=
  match file with
  | none => (.badRequestNoFile, false)
  | some f =>
    let url := uploadF f
    if missingRequired b then (.badRequestMissing, true)
    else
      let specsParsed : Option (List String) := match b.specs with
        | some s => if s ≠ "" then jsonParseStringArray s else some []
        | none => some []
      match specsParsed with
      | none => (.serverError, true)
      | some specsList =>
        (.saved
          { id := newId
            name := b.name.getD ""
            description := b.description.getD ""
            price := jsNumOfRat (jsParseFloat (b.price.getD ""))
            original_price :=
              if truthy b.originalPrice then
                some (jsNumOfRat (jsParseFloat (b.originalPrice.getD "")))
              else none
            quantity := jsNumOfInt (jsParseInt (b.quantity.getD ""))
            category := b.category.getD ""
            subcategory := b.subCategory.getD ""
            image := url
            specs := specsList
            createdAt := now }, true)

/-- Outcome of a product update handler. -/
inductive UpdateResult where
  /-- 400 `Invalid product ID format` (primary handler's `CastError`
  branch). -/
  | badRequestId : UpdateResult
  /-- 404 `Product not found`. -/
  | notFound : UpdateResult
  /-- 500 (a thrown error reached a catch block with no `CastError`
  branch, or `JSON.parse` threw). -/
  | serverError : UpdateResult
  /-- 200 with the updated record. -/
  | ok : ProductRec → UpdateResult
deriving DecidableEq, Repr

/-- JavaScript `parseFloat` of a possibly absent body value:
`parseFloat(undefined)` is NaN. -/
def jsParseFloatOpt (o : Option String) : Option ℚ :=
  match o with
  | none => none
  | some s => jsParseFloat s

/-- The update document a `PUT` handler passes to `findByIdAndUpdate`,
applied to the stored record.  MongoDB/mongoose drops keys whose value is
`undefined`, so an absent string field leaves the stored value in place,
while `parseFloat`/`parseInt` of an absent field is the defined value NaN
and is written; `original_price` is explicitly `undefined` (hence
untouched) when `originalPrice` is falsy, and the `image` key is present
only when the handler computed one. -/
def applyUpdate (p : ProductRec) (b : ProductBody) (image : Option String)
    (specsList : List String) : ProductRec :=
  { p with
    name := b.name.getD p.name
    description := b.description.getD p.description
    price := jsNumOfRat (jsParseFloatOpt b.price)
    original_price :=
      if truthy b.originalPrice then
        some (jsNumOfRat (jsParseFloat (b.originalPrice.getD "")))
      else p.original_price
    quantity := jsNumOfInt (jsParseIntOpt b.quantity)
    category := b.category.getD p.category
    subcategory := b.subCategory.getD p.subcategory
    image := image.getD p.image
    specs := specsList }

/-- The lookup `Product.findById`, also the lookup step of `findByIdAndUpdate`. -/
def findProduct (store : List ProductRec) (id : String) : Option ProductRec :=
  store.find? (fun p => p.id == id)

/-- The `PUT /api/products/:id` handler of `server.js` (after the
admin-gated middleware): evaluate the update document (`JSON.parse` on
`specs` can throw, caught as 500), call `findByIdAndUpdate` — a
malformed id raises a `CastError`, answered 400 by this handler's catch
block; a well-formed id with no record answers 404 — and return the
updated record.  `imageUrl` is `req.body.imageUrl`; a fresh file part
(`newImageUrl`) overrides it after the media-host upload. -/
def updateProduct (store : List ProductRec) (id : String) (b : ProductBody)
    (imageUrl : Option String) (newImageUrl : Option String) : UpdateResult :=
  let image : Option String := match newImageUrl with
    | some u => some u
    | none => imageUrl
  let specsParsed : Option (List String) := match b.specs with
    | some s => if s ≠ "" then jsonParseStringArray s else some []
    | none => some []
  match specsParsed with
  | none => .serverError
  | some specsList =>
    if ¬ isValidObjectId id then .badRequestId
    else
      match findProduct store id with
      | none => .notFound
      | some p => .ok (applyUpdate p b image specsList)

/-- The `PUT /:id` handler of the duplicate product router file: same
update logic (with comma-split `specs` and no image handling), but its
catch block has no `CastError` branch, so a malformed id is answered
500. -/
def routerUpdateProduct (store : List ProductRec) (id : String) (b : ProductBody) :
    UpdateResult :=
  let specsList : List String := match b.specs with
    | some s => if s ≠ "" then (s.splitOn ",").map String.trim else []
    | none => []
  if ¬ isValidObjectId id then .serverError
  else
    match findProduct store id with
    | none => .notFound
    | some p => .ok (applyUpdate p b none specsList)

/-- Outcome of a product delete handler. -/
inductive DeleteResult where
  /-- 400 `Invalid product ID format`. -/
  | badRequestId : DeleteResult
  /-- 404 `Product not found`. -/
  | notFound : DeleteResult
  /-- 500 (catch block without a `CastError` branch). -/
  | serverError : DeleteResult
  /-- 200 `Product deleted successfully`. -/
  | ok : DeleteResult
deriving DecidableEq, Repr

/-- The `DELETE /api/products/:id` handler of `server.js`:
`findByIdAndDelete`, with a `CastError` branch answering 400 and a
missing record answering 404.  Returns the outcome and the catalog after
the request. -/
def deleteProduct (store : List ProductRec) (id : String) :
    DeleteResult × List ProductRec :=
  if ¬ isValidObjectId id then (.badRequestId, store)
  else
    match findProduct store id with
    | none => (.notFound, store)
    | some _ => (.ok, store.filter (fun p => ¬ p.id == id))

/-- The `DELETE /:id` handler of the duplicate product router file: its
catch block has no `CastError` branch, so a malformed id is answered
500. -/
def routerDeleteProduct (store : List ProductRec) (id : String) :
    DeleteResult × List ProductRec :=
  if ¬ isValidObjectId id then (.serverError, store)
  else
    match findProduct store id with
    | none => (.notFound, store)
    | some _ => (.ok, store.filter (fun p => ¬ p.id == id))

/-! ## Theorems -/

/-- Claim C3: for every pair of login requests, one naming a nonexistent
username and one naming an existing username with a wrong password, the
two responses are the same 401 `Invalid credentials` response, so they
do not reveal whether the username exists. -/
theorem login_enumeration_resistance (compare : String → String → Bool)
    (sign : String → String → String) (store : List UserRec)
    (r1 r2 : LoginReq) (u : UserRec)
    (h1u : truthy r1.username = true) (h1p : truthy r1.password = true)
    (h2u : truthy r2.username = true) (h2p : truthy r2.password = true)
    (hno : findUser store (r1.username.getD "") = none)
    (hyes : findUser store (r2.username.getD "") = some u)
    (hbad : compare (r2.password.getD "") u.password = false) :
    login compare sign store r1 = .unauthenticated "Invalid credentials" ∧
    login compare sign store r2 = .unauthenticated "Invalid credentials" := by
  refine ⟨?_, ?_⟩ <;> simp [login, h1u, h1p, h2u, h2p, hno, hyes, hbad]

/-- Witness for C3 at a concrete store, a nonexistent username `bob` and
a wrong password for the existing `alice`. -/
theorem login_enumeration_resistance_witness :
    login (fun a b => a == b) (fun u _ => u) [⟨"alice", "hashed-pw", "user"⟩]
      ⟨some "bob", some "x"⟩ = .unauthenticated "Invalid credentials" ∧
    login (fun a b => a == b) (fun u _ => u) [⟨"alice", "hashed-pw", "user"⟩]
      ⟨some "alice", some "wrong"⟩ = .unauthenticated "Invalid credentials" :=
  login_enumeration_resistance (fun a b => a == b) (fun u _ => u)
    [⟨"alice", "hashed-pw", "user"⟩] ⟨some "bob", some "x"⟩
    ⟨some "alice", some "wrong"⟩ ⟨"alice", "hashed-pw", "user"⟩
    (by decide) (by decide) (by decide) (by decide) (by decide) (by decide) (by decide)

/-- Claim C4: every user record created through registration has role
`user` or `admin` (the spec-modelled store schema rejects any other), it
is appended to the credential store, and an omitted role field defaults
to `user`. -/
theorem register_role_invariant (hash : String → String) (store : List UserRec)
    (req : RegisterReq) (u : UserRec) (store' : List UserRec)
    (h : register hash store req = (.created u, store')) :
    (u.role = "user" ∨ u.role = "admin") ∧ store' = store ++ [u] ∧
      (req.role = none → u.role = "user") := by
  simp only [register] at h
  split at h
  · simp at h
  · split at h
    · simp at h
    · split at h
      next hvalid =>
        injection h with h1 h2
        injection h1 with h3
        subst h3
        subst h2
        refine ⟨?_, rfl, ?_⟩
        · simpa [roleValid] using hvalid
        · intro hr
          simp [hr]
      next => simp at h

/-- Witness for C4: registering `carol` with no role field creates a
record with role `user`. -/
theorem register_role_invariant_witness :
    (("user" : String) = "user" ∨ ("user" : String) = "admin") ∧
      ([] : List UserRec) ++ [⟨"carol", "pw#h", "user"⟩] = [] ++ [⟨"carol", "pw#h", "user"⟩] ∧
      ((none : Option String) = none → ("user" : String) = "user") := by
  have := register_role_invariant (fun s => s ++ "#h") [] ⟨some "carol", some "pw", none⟩
    ⟨"carol", "pw#h", "user"⟩ ([] ++ [⟨"carol", "pw#h", "user"⟩]) (by decide)
  exact ⟨this.1, rfl, fun _ => rfl⟩

/-- Claim C5: a registration request whose username already exists in the
credential store answers 409 Conflict and leaves the store unchanged. -/
theorem register_conflict_store_unchanged (hash : String → String)
    (store : List UserRec) (req : RegisterReq) (u : UserRec)
    (hu : truthy req.username = true) (hp : truthy req.password = true)
    (hfind : findUser store (req.username.getD "") = some u) :
    register hash store req = (.conflict, store) := by
  simp [register, hu, hp, hfind]

/-- Witness for C5: re-registering the stored username `alice` answers
Conflict and keeps the one-record store. -/
theorem register_conflict_store_unchanged_witness :
    register (fun s => s ++ "#h") [⟨"alice", "h1", "user"⟩]
      ⟨some "alice", some "secret123", none⟩ = (.conflict, [⟨"alice", "h1", "user"⟩]) :=
  register_conflict_store_unchanged (fun s => s ++ "#h") [⟨"alice", "h1", "user"⟩]
    ⟨some "alice", some "secret123", none⟩ ⟨"alice", "h1", "user"⟩
    (by decide) (by decide) (by decide)

/-- Claim C10: when a create request carries an image file but misses a
required body field, the handler answers 400 and the media-host upload
has already been performed (the upload precedes the field check). -/
theorem create_uploads_before_field_check (uploadF : String → String)
    (newId : String) (now : ℕ) (f : String) (b : ProductBody)
    (hmiss : missingRequired b = true) :
    createProduct uploadF newId now (some f) b = (.badRequestMissing, true) := by
  unfold createProduct
  simp [hmiss]

/-- Witness for C10: an image file with a body missing `name` answers 400
with the upload performed. -/
theorem create_uploads_before_field_check_witness :
    createProduct (fun _ => "https://cdn.example/i.png") "0123456789abcdef01234567" 5
      (some "filebytes")
      ⟨none, some "d", some "3", none, some "2", some "Gloves", some "Vinyl", none⟩ =
      (.badRequestMissing, true) :=
  create_uploads_before_field_check (fun _ => "https://cdn.example/i.png")
    "0123456789abcdef01234567" 5 "filebytes"
    ⟨none, some "d", some "3", none, some "2", some "Gloves", some "Vinyl", none⟩
    (by decide)

/-- A create request body whose `price` does not parse as a number but
passes the truthiness-based required-field check. -/
def priceParseFailureBody : ProductBody :=
  { name := some "Nitrile Gloves"
    description := some "Box of 100"
    price := some "abc"
    originalPrice := none
    quantity := some "3"
    category := some "Gloves"
    subCategory := some "Disposable"
    specs := none }

/-- Claim C1 (divergence witness): a create request whose `price` field
is the non-numeric string `abc` passes the required-field check, and the
handler hands the store a record whose `price` is NaN instead of
answering 400 BadRequest — `parseFloat` failure is silently coerced,
contradicting the spec invariant. -/
theorem create_price_parse_failure_reaches_store :
    createProduct (fun _ => "https://cdn.example/img.png") "0123456789abcdef01234567" 0
      (some "filebytes") priceParseFailureBody =
      (.saved
        { id := "0123456789abcdef01234567"
          name := "Nitrile Gloves"
          description := "Box of 100"
          price := JsNum.nan
          original_price := none
          quantity := JsNum.num 3
          category := "Gloves"
          subcategory := "Disposable"
          image := "https://cdn.example/img.png"
          specs := []
          createdAt := 0 }, true) := by
  decide

/-- Claim C2 (divergence witness): with `page` absent the primary listing
handler computes `skip = (parseInt(undefined) - 1) * parseInt(9999) = NaN`
and `currentPage = NaN`, and with a non-numeric `page` likewise — NaN
propagates into the store query and the response instead of a page-1
default or a 400 BadRequest. -/
theorem list_nan_propagates_into_query :
    (buildListQuery none none none none).skip = none ∧
    (buildListQuery none none none none).lim = some 9999 ∧
    listCurrentPage none = none ∧
    (buildListQuery (some "abc") (some "7") none none).skip = none ∧
    listCurrentPage (some "abc") = none := by
  refine ⟨by decide, by decide, by decide, by decide, by decide⟩

/-- A product body with every field absent. -/
def emptyBody : ProductBody :=
  { name := none, description := none, price := none, originalPrice := none,
    quantity := none, category := none, subCategory := none, specs := none }

/-- Claim C6 (divergence witness): the primary `PUT`/`DELETE` handlers
distinguish a malformed id (400) from a well-formed unknown id (404),
but the duplicate router handlers have no `CastError` branch and answer
500 for the same malformed id. -/
theorem router_malformed_id_not_distinguished :
    updateProduct [] "bad-id" emptyBody none none = .badRequestId ∧
    updateProduct [] "0123456789abcdef01234567" emptyBody none none = .notFound ∧
    (deleteProduct [] "bad-id").1 = .badRequestId ∧
    (deleteProduct [] "0123456789abcdef01234567").1 = .notFound ∧
    routerUpdateProduct [] "bad-id" emptyBody = .serverError ∧
    (routerDeleteProduct [] "bad-id").1 = .serverError := by
  refine ⟨by decide, by decide, by decide, by decide, by decide, by decide⟩

/-- The counterexample product for C7 and C9: a stored record containing
no `.` character and with category `Gloves`. -/
def sampleGloves : ProductRec :=
  { id := "0123456789abcdef01234567"
    name := "abc"
    description := "plain words"
    price := JsNum.num 5
    original_price := none
    quantity := JsNum.num 1
    category := "Gloves"
    subcategory := "Vinyl"
    image := "u"
    specs := ["latex"]
    createdAt := 0 }

/-- Claim C7 counterexample: the search string `.` contains no character
of `sampleGloves`, so it is not a case-insensitive substring of any of
its fields, yet the handler matches the product because the search
string is compiled as a regular expression whose `.` matches any
character. -/
theorem search_regex_metachar_counterexample :
    matchesDoc (buildListQuery none none (some ".") none) sampleGloves = true ∧
    specSubstringMatch "." sampleGloves = false := by
  refine ⟨by decide, by decide⟩

/-- A pattern of literal tokens matches at the front of the subject
exactly when the pattern characters are a case-insensitive prefix. -/
theorem matchHere_map_lit (n : List Char) : ∀ h : List Char,
    matchHere (n.map RTok.lit) h = isPrefixCI n h := by
  induction n with
  | nil => intro h; rfl
  | cons a as ih =>
    intro h
    cases h with
    | nil => rfl
    | cons b bs => simp [matchHere, isPrefixCI, tokMatches, ih]

/-- A pattern of literal tokens tests positively against a subject
exactly when the pattern characters occur as a case-insensitive
substring. -/
theorem regexTest_map_lit (n : List Char) : ∀ h : List Char,
    regexTest (n.map RTok.lit) h = substrCI n h := by
  intro h
  induction h with
  | nil => simp [regexTest, substrCI, matchHere_map_lit]
  | cons c cs ih => simp [regexTest, substrCI, matchHere_map_lit, ih]

/-- Compiling a pattern without the `.` character produces only literal
tokens. -/
theorem compilePattern_no_dot (cs : List Char) (hnd : ∀ c ∈ cs, c ≠ '.') :
    compilePattern cs = cs.map RTok.lit := by
  unfold compilePattern
  induction cs with
  | nil => rfl
  | cons a t ih =>
    have ha : a ≠ '.' := hnd a (List.mem_cons_self a t)
    simp only [List.map_cons, if_neg ha]
    rw [ih (fun c hc => hnd c (List.mem_cons_of_mem a hc))]

/-- Claim C7 (amended): for a search string containing no regular
expression metacharacter, the handler's regex test agrees with
case-insensitive substring matching across `name`, `description`,
`category`, `subcategory` and the `specs` entries; a search string
containing metacharacters is instead interpreted as a regular
expression. -/
theorem search_literal_matches_substring (s : String) (p : ProductRec)
    (hnm : ∀ c ∈ s.toList, jsRegexSpecial c = false) :
    productMatchesSearch s p = specSubstringMatch s p := by
  have hnd : ∀ c ∈ s.toList, c ≠ '.' := by
    intro c hc heq
    have := hnm c hc
    rw [heq] at this
    simp [jsRegexSpecial] at this
  unfold productMatchesSearch specSubstringMatch
  rw [compilePattern_no_dot s.toList hnd]
  simp only [regexTest_map_lit]

/-- Witness for the amended C7 at the search string `glove` (no
metacharacters) and the concrete product `sampleGloves`. -/
theorem search_literal_matches_substring_witness :
    (∀ c ∈ ("glove" : String).toList, jsRegexSpecial c = false) ∧
    productMatchesSearch "glove" sampleGloves = specSubstringMatch "glove" sampleGloves :=
  ⟨by decide, search_literal_matches_substring "glove" sampleGloves (by decide)⟩

/-- Membership in `insertDesc` is membership in the original list or
being the inserted element. -/
theorem mem_insertDesc {a p : ProductRec} {l : List ProductRec} :
    a ∈ insertDesc p l ↔ a = p ∨ a ∈ l := by
  induction l with
  | nil => simp [insertDesc]
  | cons q t ih =>
    unfold insertDesc
    split
    · simp [List.mem_cons]
    · simp [List.mem_cons, ih]
      tauto

/-- Sorting by creation time preserves membership. -/
theorem mem_sortByCreatedAtDesc {a : ProductRec} {l : List ProductRec} :
    a ∈ sortByCreatedAtDesc l ↔ a ∈ l := by
  induction l with
  | nil => simp [sortByCreatedAtDesc]
  | cons p t ih => simp [sortByCreatedAtDesc, mem_insertDesc, ih]

/-- Every product on a returned listing page satisfies the store query
the handler built. -/
theorem listProducts_page_matches (store : List ProductRec)
    (page limit search category : Option String) (resp : ListResp) (p : ProductRec)
    (h : listProducts store page limit search category = some resp)
    (hp : p ∈ resp.products) :
    matchesDoc (buildListQuery page limit search category) p = true := by
  simp only [listProducts] at h
  split at h
  next sk l =>
    split at h
    next hcond =>
      injection h with h
      subst h
      have h1 : p ∈ sortByCreatedAtDesc
          (store.filter (matchesDoc (buildListQuery page limit search category))) :=
        List.drop_subset _ _ (List.take_subset _ _ hp)
      rw [mem_sortByCreatedAtDesc] at h1
      exact (List.mem_filter.mp h1).2
    next => simp at h
  next => simp at h

/-- Claim C9 counterexample: a listing request whose `category` parameter
is present with the empty-string value (present and different from the
sentinel `All`) still returns `sampleGloves`, whose category `Gloves` is
not equal to the filter value — the falsy empty string disables the
filter instead of being applied. -/
theorem category_empty_string_counterexample :
    (listProducts [sampleGloves] (some "1") (some "10") none (some "")).map ListResp.products
      = some [sampleGloves] ∧
    sampleGloves.category ≠ "" := by
  refine ⟨by decide, by decide⟩

/-- Claim C9 (amended): when the `category` parameter is present,
non-empty (JavaScript-truthy) and not the sentinel `All`, every product
on the returned page has exactly that category; with the parameter
absent, empty, or `All`, no category clause is put in the query. -/
theorem category_filter_exact (store : List ProductRec)
    (page limit search : Option String) (c : String) (resp : ListResp) (p : ProductRec)
    (hc1 : c ≠ "") (hc2 : c ≠ "All")
    (h : listProducts store page limit search (some c) = some resp)
    (hp : p ∈ resp.products) :
    p.category = c ∧
    (buildListQuery page limit search none).categoryEq = none ∧
    (buildListQuery page limit search (some "All")).categoryEq = none := by
  refine ⟨?_, rfl, by simp [buildListQuery]⟩
  have hm := listProducts_page_matches store page limit search (some c) resp p h hp
  simp only [matchesDoc, Bool.and_eq_true] at hm
  have h2 := hm.2
  simp [buildListQuery, hc1, hc2] at h2
  exact h2

/-- The response of the witness listing request for C9. -/
def respGloves : ListResp :=
  { products := [sampleGloves]
    currentPage := some 1
    totalPages := listTotalPages 1 (some 10)
    totalProducts := 1 }

/-- Witness for the amended C9: filtering on the category `Gloves`
returns `sampleGloves`, whose category is exactly `Gloves`. -/
theorem category_filter_exact_witness :
    ("Gloves" : String) ≠ "" ∧ ("Gloves" : String) ≠ "All" ∧
    listProducts [sampleGloves] (some "1") (some "10") none (some "Gloves")
      = some respGloves ∧
    sampleGloves ∈ respGloves.products ∧
    sampleGloves.category = "Gloves" :=
  ⟨by decide, by decide, by rfl, by decide,
    (category_filter_exact [sampleGloves] (some "1") (some "10") none "Gloves" respGloves
      sampleGloves (by decide) (by decide) (by rfl) (by decide)).1⟩

/-- The ceiling of the rational quotient of two naturals is the rounded-up
integer division `(n + d - 1) / d`. -/
theorem ceil_cast_div_eq_pred_div (n d : ℕ) (hd : 0 < d) :
    ⌈(n : ℚ) / (d : ℚ)⌉ = (((n + d - 1) / d : ℕ) : ℤ) := by
  have h1 := Nat.div_add_mod (n + d - 1) d
  have h2 : (n + d - 1) % d < d := Nat.mod_lt _ hd
  set q : ℕ := (n + d - 1) / d with hq
  have hub : d * q < n + d := by omega
  have hlb : n ≤ d * q := by omega
  have hd' : (0 : ℚ) < (d : ℚ) := by exact_mod_cast hd
  have hub' : (d : ℚ) * (q : ℚ) < (n : ℚ) + (d : ℚ) := by exact_mod_cast hub
  have hlb' : (n : ℚ) ≤ (d : ℚ) * (q : ℚ) := by exact_mod_cast hlb
  rw [Int.ceil_eq_iff]
  constructor
  · have heq : (n : ℚ) / (d : ℚ) + 1 = ((n : ℚ) + (d : ℚ)) / (d : ℚ) := by field_simp
    push_cast
    rw [sub_lt_iff_lt_add, heq, lt_div_iff₀ hd']
    nlinarith [hub']
  · push_cast
    rw [div_le_iff₀ hd']
    nlinarith [hlb']

/-- Claim C8: for a listing request whose limit parses to a positive
integer, the response counts with `totalProducts` exactly the products
matching the query the handler built, reports
`totalPages = ceil(totalProducts / limit)` (equivalently the rounded-up
integer division), and every product on the page matches that same
query. -/
theorem list_totalPages_is_ceil (store : List ProductRec)
    (page limit search category : Option String) (l : ℤ) (resp : ListResp)
    (hl : jsParseInt (limit.getD "9999") = some l) (hl1 : 1 ≤ l)
    (h : listProducts store page limit search category = some resp) :
    resp.totalProducts
        = (store.filter (matchesDoc (buildListQuery page limit search category))).length ∧
    resp.totalPages = JsNum.num ((⌈(resp.totalProducts : ℚ) / (l : ℚ)⌉ : ℤ) : ℚ) ∧
    resp.totalPages
        = JsNum.num (((resp.totalProducts + l.toNat - 1) / l.toNat : ℕ) : ℚ) ∧
    ∀ p ∈ resp.products, matchesDoc (buildListQuery page limit search category) p = true := by
  have hmatch : ∀ p ∈ resp.products,
      matchesDoc (buildListQuery page limit search category) p = true :=
    fun p hp => listProducts_page_matches store page limit search category resp p h hp
  simp only [listProducts] at h
  rw [hl] at h
  split at h
  next sk =>
    split at h
    next hcond =>
      injection h with h
      cases h
      have hl0 : ¬ (l = 0) := by omega
      have hd : 0 < l.toNat := by omega
      have hlq : ((l.toNat : ℕ) : ℚ) = (l : ℚ) := by
        have h3 := Int.toNat_of_nonneg (show (0 : ℤ) ≤ l by omega)
        exact_mod_cast congrArg (fun z : ℤ => (z : ℚ)) h3
      set N := (store.filter (matchesDoc (buildListQuery page limit search category))).length
        with hN
      have hceil := ceil_cast_div_eq_pred_div N l.toNat hd
      rw [hlq] at hceil
      refine ⟨rfl, ?_, ?_, hmatch⟩
      · show listTotalPages N (some l) = JsNum.num ((⌈(N : ℚ) / (l : ℚ)⌉ : ℤ) : ℚ)
        simp [listTotalPages, hl0]
      · show listTotalPages N (some l)
            = JsNum.num (((N + l.toNat - 1) / l.toNat : ℕ) : ℚ)
        simp only [listTotalPages, hl0, if_false]
        rw [hceil]
        norm_cast
    next => simp at h
  next => simp at h

/-- The response of the witness listing request for C8. -/
def respPaged : ListResp :=
  { products := [sampleGloves]
    currentPage := some 1
    totalPages := listTotalPages 1 (some 2)
    totalProducts := 1 }

/-- Witness for C8: one stored product listed with limit 2 reports one
total product, one total page, and a page matching the query. -/
theorem list_totalPages_is_ceil_witness :
    jsParseInt ((some "2" : Option String).getD "9999") = some 2 ∧ (1 : ℤ) ≤ 2 ∧
    listProducts [sampleGloves] (some "1") (some "2") none none = some respPaged ∧
    (respPaged.totalProducts
        = (List.filter (matchesDoc (buildListQuery (some "1") (some "2") none none))
            [sampleGloves]).length ∧
     respPaged.totalPages
        = JsNum.num ((⌈(respPaged.totalProducts : ℚ) / ((2 : ℤ) : ℚ)⌉ : ℤ) : ℚ) ∧
     respPaged.totalPages
        = JsNum.num (((respPaged.totalProducts + (2 : ℤ).toNat - 1) / (2 : ℤ).toNat : ℕ) : ℚ) ∧
     ∀ p ∈ respPaged.products,
        matchesDoc (buildListQuery (some "1") (some "2") none none) p = true) :=
  ⟨by decide, by decide, by rfl,
    list_totalPages_is_ceil [sampleGloves] (some "1") (some "2") none none 2 respPaged
      (by decide) (by decide) (by rfl)⟩
